import Mathlib

/-!
JobBot — Job Relevance & Routing Engine, shallow embedding

A shallow embedding of the relevance/routing core of the JobBot repository
(`src/filters.py`, contact extraction of `src/emailer.py`) together with
theorems settling the specification's claims about it.

Conventions of the embedding:
* Python strings are Lean `String`s; `x in text` (substring test) is `strIn`;
  `str.lower()` is `pyLower` (per-character ASCII lower-casing).
* A Python job-record dict is an association list `JobDict`; `dict.get(k, d)`
  is `dget`.
* Python floats appearing in salary / experience arithmetic are embedded as
  exact rationals `ℚ` (all literals in the source are short decimals).
* The regular-expression cascades of `extract_salary`,
  `calculate_experience_match` and the emailer are embedded as explicit
  scanning functions, one per pattern, that reproduce `re.findall`'s
  leftmost-match semantics on those patterns (the greedy character-class
  quantifiers in them commit to maximal munch, which on these patterns agrees
  with full backtracking because each quantified class excludes the character
  that must follow it).
* The source file `src/emailer.py` writes its regex literals with doubled
  backslashes (e.g. `r'\\b...'`), so those patterns match literal backslash
  characters; the embedding reproduces that behaviour faithfully.
-/

namespace JobBot

/-- `List` version of Python's substring test: does `needle` occur as a
contiguous sublist of `hay`? -/
def listIn (needle : List Char) : List Char → Bool
  | [] => needle.isEmpty
  | c :: rest => needle.isPrefixOf (c :: rest) || listIn needle rest

/-- Python's `needle in hay` on strings. -/
def strIn (needle hay : String) : Bool :=
  listIn needle.data hay.data

/-- Python `s.lower()`: lower-case character by character (`Char.toLower`
handles the ASCII range, which is all the source's keyword lists use). -/
def pyLower (s : String) : String :=
  String.mk (s.data.map Char.toLower)

/-- A Python dict of string fields (a scraped job record). -/
def JobDict := List (String × String)

/-- Python `d.get(k, dflt)`. -/
def dget (d : JobDict) (k dflt : String) : String :=
  match List.find? (fun p => p.1 == k) d with
  | some p => p.2
  | none => dflt

/-- Python `s.split()`: split on whitespace runs, dropping empty pieces. -/
def pySplit (s : String) : List String :=
  (s.split Char.isWhitespace).filter (fun w => w ≠ "")

/-- Python `repr` of a list of strings, as interpolated into f-strings. -/
def pyStrListRepr (l : List String) : String :=
  "[" ++ String.intercalate ", " (l.map (fun s => "'" ++ s ++ "'")) ++ "]"

/-- How many keywords of `kws` occur in `text` (Python counts one per list
entry whose text occurs as a substring). -/
def hitCount (kws : List String) (text : String) : Nat :=
  (kws.filter (fun kw => strIn kw text)).length

/-- The `keywords` section of `config.json`. -/
structure Keywords where
  positive : List String
  negative : List String
  fresher_friendly : List String

/-- The parts of `config.json` the filter reads (`JobFilter.__init__`). -/
structure Config where
  keywords : Keywords
  min_salary : ℚ
  max_salary : ℚ
  target_locations : List String
  qa_automation : String
  qa_entry : String
  qa_general : String

/-- Result dict of `JobFilter.is_relevant_role`.  The accept branch is the
only one that carries a `fresher_friendly` key; rejection dicts lack it and
`filter_job` reads it with `.get('fresher_friendly', False)`, so the reject
branches store `false` here. -/
structure RoleCheck where
  is_relevant : Bool
  reason : String
  matched_keywords : List String
  fresher_friendly : Bool
  score : Nat

/-- `JobFilter.is_relevant_role` (src/filters.py lines 24-83). -/
def is_relevant_role (cfg : Config) (job_title job_description : String) :
    RoleCheck :=
  let text := pyLower (job_title ++ " " ++ job_description)
  let matched_keywords := cfg.keywords.positive.filter (fun kw => strIn kw text)
  let positive_matches := matched_keywords.length
  if positive_matches < 2 then
    { is_relevant := false
      reason := "Insufficient QA/Testing keywords"
      matched_keywords := matched_keywords
      fresher_friendly := false
      score := 0 }
  else
    let negative_keywords := cfg.keywords.negative.filter (fun kw => strIn kw text)
    let fresher_keywords :=
      cfg.keywords.fresher_friendly.filter (fun kw => strIn kw text)
    if 0 < negative_keywords.length ∧ fresher_keywords.length = 0 then
      { is_relevant := false
        reason := "High experience requirement: " ++ pyStrListRepr negative_keywords
        matched_keywords := matched_keywords
        fresher_friendly := false
        score := 0 }
    else
      { is_relevant := true
        reason := "Good match with " ++ toString positive_matches ++ " QA keywords"
        matched_keywords := matched_keywords
        fresher_friendly := decide (0 < fresher_keywords.length)
        score := min 100 (positive_matches * 10 + fresher_keywords.length * 5) }

/-- Result dict of `JobFilter.is_location_match`. -/
structure LocCheck where
  is_match : Bool
  reason : String

/-- The fixed remote-work vocabulary of `is_location_match`. -/
def remote_indicators : List String :=
  ["remote", "work from home", "wfh", "anywhere", "virtual",
   "distributed", "home based", "telecommute"]

/-- `JobFilter.is_location_match` (src/filters.py lines 138-165). -/
def is_location_match (cfg : Config) (location : String) : LocCheck :=
  if location = "" then
    { is_match := true, reason := "No location specified (assuming remote)" }
  else
    let location_lower := pyLower location
    match cfg.target_locations.find? (fun t => strIn (pyLower t) location_lower) with
    | some target_loc =>
        { is_match := true, reason := "Matches preferred location: " ++ target_loc }
    | none =>
      match remote_indicators.find? (fun ind => strIn ind location_lower) with
      | some indicator =>
          { is_match := true, reason := "Remote work: " ++ indicator }
      | none =>
        match cfg.target_locations.find?
            (fun t => (pySplit (pyLower t)).any (fun w => strIn w location_lower)) with
        | some target_loc =>
            { is_match := true, reason := "Partial location match: " ++ target_loc }
        | none =>
            { is_match := false
              reason := "Location " ++ location ++ " not in preferred list" }

/-- The advanced automation keywords of `select_resume` (for Mani_QA1.pdf). -/
def automation_keywords : List String :=
  ["selenium", "pytest", "automation framework", "ci/cd", "jenkins",
   "api testing", "python automation", "test framework", "automation engineer",
   "sdet", "technical testing", "test automation", "framework development",
   "scripting", "api automation", "regression automation"]

/-- The entry level keywords of `select_resume` (for Mani_QA3.pdf). -/
def entry_keywords : List String :=
  ["fresher", "entry level", "trainee", "graduate", "0-1 year",
   "0-2 year", "manual testing", "basic", "beginner", "new grad",
   "associate", "junior", "starting career"]

/-- The advanced project keywords of `select_resume`. -/
def advanced_project_keywords : List String :=
  ["framework", "tool development", "python", "automation tool",
   "testing utility", "performance testing", "load testing"]

/-- `JobFilter.select_resume` (src/filters.py lines 167-203). -/
def select_resume (cfg : Config) (job_title job_description : String) : String :=
  let text := pyLower (job_title ++ " " ++ job_description)
  let automation_score := hitCount automation_keywords text
  let entry_score := hitCount entry_keywords text
  let advanced_score := hitCount advanced_project_keywords text
  if 3 ≤ automation_score ∨ 2 ≤ advanced_score then
    cfg.qa_automation
  else if 2 ≤ entry_score then
    cfg.qa_entry
  else
    cfg.qa_general

/-! ## Regex scanning primitives

`re.findall(pat, text)` on the patterns of `extract_salary` and
`calculate_experience_match`, embedded as explicit scanners.  Only the first
match is consumed by the source (`matches[0]`), so each pattern is embedded as
an at-position matcher returning the captured groups, plus `findFirst`, which
tries every start position left to right (Python's leftmost-match rule). -/

/-- Maximal-munch `\d+` returning its numeric value (`int(x)`). -/
def digitsVal (ds : List Char) : Nat :=
  ds.foldl (fun n c => 10 * n + (c.toNat - '0'.toNat)) 0

/-- `(\d+)` with `int` conversion. -/
def munchNat (cs : List Char) : Option (Nat × List Char) :=
  let d := cs.takeWhile Char.isDigit
  if d.isEmpty then none else some (digitsVal d, cs.dropWhile Char.isDigit)

/-- `(\d+(?:\.\d+)?)`: an integer with optional fractional part, captured as
the matched text. -/
def munchDec (cs : List Char) : Option (String × List Char) :=
  let d := cs.takeWhile Char.isDigit
  let rest := cs.dropWhile Char.isDigit
  if d.isEmpty then none
  else
    match rest with
    | '.' :: r2 =>
      let f := r2.takeWhile Char.isDigit
      if f.isEmpty then some (String.mk d, rest)
      else some (String.mk (d ++ '.' :: f), r2.dropWhile Char.isDigit)
    | _ => some (String.mk d, rest)

/-- `\s*`. -/
def dropSpaces (cs : List Char) : List Char :=
  cs.dropWhile Char.isWhitespace

/-- A literal word of a pattern: consumed or the position fails. -/
def lit (w : String) (cs : List Char) : Option (List Char) :=
  if w.data.isPrefixOf cs then some (cs.drop w.data.length) else none

/-- An optional literal character (`-?`, `:?`, `s?`, …). -/
def litOpt (c : Char) (cs : List Char) : List Char :=
  match cs with
  | c' :: rest => if c' = c then rest else c' :: rest
  | [] => []

/-- Python `float` on a `munchDec` capture, as an exact rational. -/
def pyFloat (s : String) : ℚ :=
  let d := s.data.takeWhile (fun c => c ≠ '.')
  match s.data.dropWhile (fun c => c ≠ '.') with
  | '.' :: f => (digitsVal d : ℚ) + (digitsVal f : ℚ) / (10 ^ f.length : ℚ)
  | _ => (digitsVal d : ℚ)

/-- Leftmost match: try the pattern at every start position, first hit wins. -/
def findFirst {β : Type} (p : List Char → Option β) : List Char → Option β
  | [] => p []
  | c :: rest =>
    match p (c :: rest) with
    | some r => some r
    | none => findFirst p rest

/-- The shared core `(\d+(?:\.\d+)?)\s*-?\s*(\d+(?:\.\d+)?)?` of the salary
range patterns: first capture, optional second capture, rest. -/
def rangePartAt (cs : List Char) : Option (String × Option String × List Char) :=
  match munchDec cs with
  | none => none
  | some (g1, r1) =>
    let r3 := dropSpaces (litOpt '-' (dropSpaces r1))
    match munchDec r3 with
    | some (g2, r4) => some (g1, some g2, r4)
    | none => some (g1, none, r3)

/-- Salary pattern 1: `(\d+(?:\.\d+)?)\s*-?\s*(\d+(?:\.\d+)?)?\s*lpa`. -/
def salPat1At (cs : List Char) : Option (String × Option String) :=
  match rangePartAt cs with
  | some (g1, g2, rest) =>
    if (lit "lpa" (dropSpaces rest)).isSome then some (g1, g2) else none
  | none => none

/-- The mangled rupee sign written literally in salary pattern 2 of the
source (`â‚ą`, three characters). -/
def rupeeMangled : String := "â‚ą"

/-- Salary pattern 2: `â‚ą\s*(\d+(?:\.\d+)?)\s*-?\s*(\d+(?:\.\d+)?)?\s*lakh`. -/
def salPat2At (cs : List Char) : Option (String × Option String) :=
  match lit rupeeMangled cs with
  | some r1 =>
    match rangePartAt (dropSpaces r1) with
    | some (g1, g2, rest) =>
      if (lit "lakh" (dropSpaces rest)).isSome then some (g1, g2) else none
    | none => none
  | none => none

/-- Salary pattern 3:
`(\d+(?:\.\d+)?)\s*-?\s*(\d+(?:\.\d+)?)?\s*lakhs?\s*per\s*annum`. -/
def salPat3At (cs : List Char) : Option (String × Option String) :=
  match rangePartAt cs with
  | some (g1, g2, rest) =>
    match lit "lakh" (dropSpaces rest) with
    | some r1 =>
      match lit "per" (dropSpaces (litOpt 's' r1)) with
      | some r2 =>
        if (lit "annum" (dropSpaces r2)).isSome then some (g1, g2) else none
      | none => none
    | none => none
  | none => none

/-- Salary patterns 4-6: `word:?\s*(\d+(?:\.\d+)?)\s*-?\s*(\d+(?:\.\d+)?)?\s*lpa`
with `word` one of `salary`, `ctc`, `package`. -/
def salPrefixedAt (word : String) (cs : List Char) : Option (String × Option String) :=
  match lit word cs with
  | some r1 =>
    match rangePartAt (dropSpaces (litOpt ':' r1)) with
    | some (g1, g2, rest) =>
      if (lit "lpa" (dropSpaces rest)).isSome then some (g1, g2) else none
    | none => none
  | none => none

/-- Salary pattern 7: `(\d+(?:\.\d+)?)\s*to\s*(\d+(?:\.\d+)?)\s*lpa`. -/
def salPat7At (cs : List Char) : Option (String × String) :=
  match munchDec cs with
  | some (g1, r1) =>
    match lit "to" (dropSpaces r1) with
    | some r2 =>
      match munchDec (dropSpaces r2) with
      | some (g2, r3) =>
        if (lit "lpa" (dropSpaces r3)).isSome then some (g1, g2) else none
      | none => none
    | none => none
  | none => none

/-- Salary pattern 8: `upto?\s*(\d+(?:\.\d+)?)\s*lpa`. -/
def salPat8At (cs : List Char) : Option String :=
  match lit "upt" cs with
  | some r1 =>
    match munchDec (dropSpaces (litOpt 'o' r1)) with
    | some (g1, r2) =>
      if (lit "lpa" (dropSpaces r2)).isSome then some g1 else none
    | none => none
  | none => none

/-- Result dict of `JobFilter.extract_salary`. -/
structure SalaryInfo where
  min_salary : ℚ
  max_salary : ℚ
  average_salary : ℚ
  found : Bool

/-- The single-value salary result. -/
def salSingle (v : ℚ) : SalaryInfo :=
  { min_salary := v, max_salary := v, average_salary := v, found := true }

/-- What the source builds from a two-group match (`matches[0]` a tuple): an
empty second group leaves one number, otherwise min/max/average of the two. -/
def salFromPair : String × Option String → SalaryInfo
  | (a, none) => salSingle (pyFloat a)
  | (a, some b) =>
    { min_salary := min (pyFloat a) (pyFloat b)
      max_salary := max (pyFloat a) (pyFloat b)
      average_salary := (pyFloat a + pyFloat b) / 2
      found := true }

/-- `JobFilter.extract_salary` (src/filters.py lines 85-136): the eight
patterns tried in order, first matching pattern wins. -/
def extract_salary (job_text : String) : SalaryInfo :=
  let text := (pyLower job_text).data
  match findFirst salPat1At text with
  | some m => salFromPair m
  | none =>
  match findFirst salPat2At text with
  | some m => salFromPair m
  | none =>
  match findFirst salPat3At text with
  | some m => salFromPair m
  | none =>
  match findFirst (salPrefixedAt "salary") text with
  | some m => salFromPair m
  | none =>
  match findFirst (salPrefixedAt "ctc") text with
  | some m => salFromPair m
  | none =>
  match findFirst (salPrefixedAt "package") text with
  | some m => salFromPair m
  | none =>
  match findFirst salPat7At text with
  | some (a, b) => salFromPair (a, some b)
  | none =>
  match findFirst salPat8At text with
  | some a => salSingle (pyFloat a)
  | none =>
    { min_salary := 0, max_salary := 0, average_salary := 0, found := false }

/-! ## Experience matching -/

/-- Result dict of `JobFilter.calculate_experience_match`. -/
structure ExpCheck where
  is_match : Bool
  required_exp : Nat
  reason : String

/-- The candidate's fixed assumed experience (`actual_experience = 1.5`). -/
def actual_experience : ℚ := 3 / 2

/-- Experience pattern 1: `(\d+)\+?\s*years?\s*(?:of\s*)?experience`. -/
def expPat1At (cs : List Char) : Option Nat :=
  match munchNat cs with
  | some (n, r1) =>
    match lit "year" (dropSpaces (litOpt '+' r1)) with
    | some r2 =>
      let r3 := dropSpaces (litOpt 's' r2)
      let r4 := match lit "of" r3 with
        | some ro => dropSpaces ro
        | none => r3
      if (lit "experience" r4).isSome then some n else none
    | none => none
  | none => none

/-- Experience pattern 2: `(\d+)\s*to\s*(\d+)\s*years?`. -/
def expPat2At (cs : List Char) : Option (Nat × Nat) :=
  match munchNat cs with
  | some (a, r1) =>
    match lit "to" (dropSpaces r1) with
    | some r2 =>
      match munchNat (dropSpaces r2) with
      | some (b, r3) =>
        if (lit "year" (dropSpaces r3)).isSome then some (a, b) else none
      | none => none
    | none => none
  | none => none

/-- Experience pattern 3: `minimum\s*(\d+)\s*years?`. -/
def expPat3At (cs : List Char) : Option Nat :=
  match lit "minimum" cs with
  | some r1 =>
    match munchNat (dropSpaces r1) with
    | some (n, r2) =>
      if (lit "year" (dropSpaces r2)).isSome then some n else none
    | none => none
  | none => none

/-- Experience pattern 4: `at\s*least\s*(\d+)\s*years?`. -/
def expPat4At (cs : List Char) : Option Nat :=
  match lit "at" cs with
  | some r1 =>
    match lit "least" (dropSpaces r1) with
    | some r2 =>
      match munchNat (dropSpaces r2) with
      | some (n, r3) =>
        if (lit "year" (dropSpaces r3)).isSome then some n else none
      | none => none
    | none => none
  | none => none

/-- Experience pattern 5: `(\d+)\s*-\s*(\d+)\s*years?`. -/
def expPat5At (cs : List Char) : Option (Nat × Nat) :=
  match munchNat cs with
  | some (a, r1) =>
    match lit "-" (dropSpaces r1) with
    | some r2 =>
      match munchNat (dropSpaces r2) with
      | some (b, r3) =>
        if (lit "year" (dropSpaces r3)).isSome then some (a, b) else none
      | none => none
    | none => none
  | none => none

/-- The requirement the loop of `calculate_experience_match` extracts: the
first pattern (in source order) with a match decides; a tuple match
contributes the minimum of its numbers. -/
def expRequired (text : List Char) : Option Nat :=
  match findFirst expPat1At text with
  | some n => some n
  | none =>
  match findFirst expPat2At text with
  | some (a, b) => some (min a b)
  | none =>
  match findFirst expPat3At text with
  | some n => some n
  | none =>
  match findFirst expPat4At text with
  | some n => some n
  | none =>
  match findFirst expPat5At text with
  | some (a, b) => some (min a b)
  | none => none

/-- `JobFilter.calculate_experience_match` (src/filters.py lines 205-248). -/
def calculate_experience_match (job_description : String) : ExpCheck :=
  match expRequired (pyLower job_description).data with
  | some required_exp =>
    if (required_exp : ℚ) ≤ actual_experience + 1 then
      { is_match := true
        required_exp := required_exp
        reason := "Experience requirement (" ++ toString required_exp ++
          " years) matches profile" }
    else
      { is_match := false
        required_exp := required_exp
        reason := "Requires " ++ toString required_exp ++
          " years, profile has 1.5" }
  | none =>
    { is_match := true
      required_exp := 0
      reason := "No specific experience requirement mentioned" }

/-! ## The Routing Engine: `filter_job` -/

/-- The result dict of `JobFilter.filter_job`.  The four `details` entries are
`Option`s: `none` models a key absent from the Python `details` dict (a stage
not yet executed); `salary_lpa = none` models the string `'Not specified'`;
the last three fields are only added in the accept branch. -/
structure FilterResult where
  is_relevant : Bool
  reason : String
  role_check : Option RoleCheck := none
  location_check : Option LocCheck := none
  experience_check : Option ExpCheck := none
  salary_info : Option SalaryInfo := none
  resume_to_use : String := ""
  relevance_score : Nat := 0
  salary_lpa : Option ℚ := none
  is_fresher_friendly : Option Bool := none
  matched_keywords : Option (List String) := none

/-- The pipeline of `filter_job` after the four field reads
(src/filters.py lines 258-317): role → location → experience → salary with
short-circuit rejection, then résumé selection and the accept result.
`_company` is read by the source and never used. -/
def filter_job_from (cfg : Config)
    (title description location _company : String) : FilterResult :=
  let role_check := is_relevant_role cfg title description
  if role_check.is_relevant = false then
    { is_relevant := false
      reason := role_check.reason
      role_check := some role_check }
  else
    let location_check := is_location_match cfg location
    if location_check.is_match = false then
      { is_relevant := false
        reason := location_check.reason
        role_check := some role_check
        location_check := some location_check }
    else
      let exp_check := calculate_experience_match description
      if exp_check.is_match = false then
        { is_relevant := false
          reason := exp_check.reason
          role_check := some role_check
          location_check := some location_check
          experience_check := some exp_check }
      else
        let salary_info := extract_salary (title ++ " " ++ description)
        if salary_info.found = true ∧ salary_info.max_salary < cfg.min_salary then
          { is_relevant := false
            reason := "Salary " ++ toString salary_info.max_salary ++
              " LPA below minimum " ++ toString cfg.min_salary ++ " LPA"
            role_check := some role_check
            location_check := some location_check
            experience_check := some exp_check
            salary_info := some salary_info }
        else if salary_info.found = true ∧ cfg.max_salary < salary_info.min_salary then
          { is_relevant := false
            reason := "Salary " ++ toString salary_info.min_salary ++
              " LPA above realistic range"
            role_check := some role_check
            location_check := some location_check
            experience_check := some exp_check
            salary_info := some salary_info }
        else
          { is_relevant := true
            reason := "Job matches all criteria"
            role_check := some role_check
            location_check := some location_check
            experience_check := some exp_check
            salary_info := some salary_info
            resume_to_use := select_resume cfg title description
            relevance_score := role_check.score
            salary_lpa :=
              if salary_info.found = true then some salary_info.average_salary
              else none
            is_fresher_friendly := some role_check.fresher_friendly
            matched_keywords := some role_check.matched_keywords }

/-- `JobFilter.filter_job` (src/filters.py lines 250-317) on a job dict. -/
def filter_job (cfg : Config) (job_data : JobDict) : FilterResult :=
  filter_job_from cfg (dget job_data "title" "") (dget job_data "description" "")
    (dget job_data "location" "") (dget job_data "company" "")

/-- Python `job_data.get(k, dflt)` with the dict state made explicit: a read
that returns the dict unchanged. -/
def dictGet (k dflt : String) (d : JobDict) : String × JobDict :=
  (dget d k dflt, d)

/-- `filter_job` with the input dict threaded through every operation the
source performs on it (the four `.get` reads; the body assigns only to the
fresh `filter_result` dict, never to `job_data`). -/
def filter_job_frame (cfg : Config) (d0 : JobDict) : FilterResult × JobDict :=
  let r1 := dictGet "title" "" d0
  let r2 := dictGet "description" "" r1.2
  let r3 := dictGet "location" "" r2.2
  let r4 := dictGet "company" "" r3.2
  (filter_job_from cfg r1.1 r2.1 r3.1 r4.1, r4.2)

/-! ## The `try/except` of `filter_job`

The source wraps the whole pipeline in `try/except Exception`, returning a
fixed rejection dict built from the exception text.  The embedding makes the
possibility of a stage fault explicit: each stage is a function that either
returns its result or raises (`Except.error` with the fault text), and
`filter_job_safe` is the guarded pipeline. -/

/-- The five stage calls of `filter_job`, each allowed to raise. -/
structure Stages where
  role : String → String → Except String RoleCheck
  loc : String → Except String LocCheck
  exp : String → Except String ExpCheck
  sal : String → Except String SalaryInfo
  resume : String → String → Except String String

/-- The body of the `try:` block of `filter_job`, over fallible stages: the
same pipeline as `filter_job_from`, each stage call allowed to raise, a raise
aborting the rest of the body (`Except.bind`). -/
def filter_job_body (cfg : Config) (st : Stages) (job_data : JobDict) :
    Except String FilterResult :=
  let title := dget job_data "title" ""
  let description := dget job_data "description" ""
  let location := dget job_data "location" ""
  Except.bind (st.role title description) (fun role_check =>
  if role_check.is_relevant = false then
    Except.ok { is_relevant := false
                reason := role_check.reason
                role_check := some role_check }
  else
  Except.bind (st.loc location) (fun location_check =>
  if location_check.is_match = false then
    Except.ok { is_relevant := false
                reason := location_check.reason
                role_check := some role_check
                location_check := some location_check }
  else
  Except.bind (st.exp description) (fun exp_check =>
  if exp_check.is_match = false then
    Except.ok { is_relevant := false
                reason := exp_check.reason
                role_check := some role_check
                location_check := some location_check
                experience_check := some exp_check }
  else
  Except.bind (st.sal (title ++ " " ++ description)) (fun salary_info =>
  if salary_info.found = true ∧ salary_info.max_salary < cfg.min_salary then
    Except.ok { is_relevant := false
                reason := "Salary " ++ toString salary_info.max_salary ++
                  " LPA below minimum " ++ toString cfg.min_salary ++ " LPA"
                role_check := some role_check
                location_check := some location_check
                experience_check := some exp_check
                salary_info := some salary_info }
  else if salary_info.found = true ∧ cfg.max_salary < salary_info.min_salary then
    Except.ok { is_relevant := false
                reason := "Salary " ++ toString salary_info.min_salary ++
                  " LPA above realistic range"
                role_check := some role_check
                location_check := some location_check
                experience_check := some exp_check
                salary_info := some salary_info }
  else
  Except.bind (st.resume title description) (fun resume_file =>
  Except.ok { is_relevant := true
              reason := "Job matches all criteria"
              role_check := some role_check
              location_check := some location_check
              experience_check := some exp_check
              salary_info := some salary_info
              resume_to_use := resume_file
              relevance_score := role_check.score
              salary_lpa :=
                if salary_info.found = true then some salary_info.average_salary
                else none
              is_fresher_friendly := some role_check.fresher_friendly
              matched_keywords := some role_check.matched_keywords })))))

/-- The result of the `except` handler of `filter_job`: rejected, reason
embedding the fault text, empty `details`, no partial stage results. -/
def error_result (e : String) : FilterResult :=
  { is_relevant := false, reason := "Error filtering job: " ++ e }

/-- `filter_job` with its `try/except`: a fault anywhere in the body is
caught and converted into `error_result`; the function never raises. -/
def filter_job_safe (cfg : Config) (st : Stages) (job_data : JobDict) :
    FilterResult :=
  match filter_job_body cfg st job_data with
  | Except.ok r => r
  | Except.error e => error_result e

/-- The stage functions as the source binds them: none of them raises. -/
def pureStages (cfg : Config) : Stages where
  role := fun t d => Except.ok (is_relevant_role cfg t d)
  loc := fun l => Except.ok (is_location_match cfg l)
  exp := fun d => Except.ok (calculate_experience_match d)
  sal := fun t => Except.ok (extract_salary t)
  resume := fun t d => Except.ok (select_resume cfg t d)

/-! ## Contact extraction (`src/emailer.py`)

The regex literals of `emailer.py` are written with doubled backslashes
inside raw strings (e.g. `r'\\b...'`), so in the compiled patterns `\\`
matches one literal backslash character and the following `b`, `s`, `.` are
literals / the any-character class, not the escapes the author presumably
intended.  The embedding reproduces that behaviour. -/

/-- `[A-Za-z0-9._%+-]` (the local part class of the email patterns). -/
def isLocalChar (c : Char) : Bool :=
  c.isAlphanum || c = '.' || c = '_' || c = '%' || c = '+' || c = '-'

/-- `[A-Za-z0-9.-]` (the domain class). -/
def isDomChar (c : Char) : Bool :=
  c.isAlphanum || c = '.' || c = '-'

/-- `[A-Z|a-z]` (the TLD class, with the stray `|` the source writes). -/
def isTldChar (c : Char) : Bool :=
  c.isAlpha || c = '|'

/-- `EmailManager.is_valid_email` (src/emailer.py lines 476-479):
`re.match(r'^[A-Za-z0-9._%+-]+@[A-Za-z0-9.-]+\\.[A-Z|a-z]{2,}$', email)`.
With the doubled backslash the pattern requires, after the domain run, one
literal backslash, then any character (not a newline), then at least two
letters, then the end (re's `$` also matches just before one final
newline). -/
def is_valid_email (email : String) : Bool :=
  if (email.data.takeWhile isLocalChar).isEmpty then false
  else
    match email.data.dropWhile isLocalChar with
    | '@' :: r1 =>
      if (r1.takeWhile isDomChar).isEmpty then false
      else
        match r1.dropWhile isDomChar with
        | '\\' :: a :: r2 =>
          if a = '\n' then false
          else
            decide (2 ≤ (r2.takeWhile isTldChar).length) &&
              ((r2.dropWhile isTldChar).isEmpty ||
                r2.dropWhile isTldChar == ['\n'])
        | _ => false
    | _ => false

/-- One attempt of the findall pattern of `extract_emails_from_text`
(src/emailer.py line 462) at a fixed start position:
`\\b[A-Za-z0-9._%+-]+@[A-Za-z0-9.-]+\\.[A-Z|a-z]{2,}\\b`, i.e. literal `\b`,
local part, `@`, domain, literal backslash, any character, two or more
letters, literal `\b`.  Returns the full match (the pattern has no groups)
and the rest of the input after it. -/
def emailMatchAt (cs : List Char) : Option (String × List Char) :=
  match cs with
  | '\\' :: 'b' :: r1 =>
    if (r1.takeWhile isLocalChar).isEmpty then none
    else
      match r1.dropWhile isLocalChar with
      | '@' :: r2 =>
        if (r2.takeWhile isDomChar).isEmpty then none
        else
          match r2.dropWhile isDomChar with
          | '\\' :: a :: r3 =>
            if a = '\n' then none
            else
              if 2 ≤ (r3.takeWhile isTldChar).length then
                match r3.dropWhile isTldChar with
                | '\\' :: 'b' :: r4 =>
                  some (String.mk ('\\' :: 'b' :: r1.takeWhile isLocalChar ++
                    '@' :: r2.takeWhile isDomChar ++
                    '\\' :: a :: r3.takeWhile isTldChar ++ ['\\', 'b']), r4)
                | _ => none
              else none
          | _ => none
      | _ => none
  | _ => none

/-- `dropWhile` never lengthens a list. -/
theorem dropWhile_len_le {α : Type} (p : α → Bool) (l : List α) :
    (l.dropWhile p).length ≤ l.length := by
  induction l with
  | nil => simp [List.dropWhile]
  | cons c rest ih =>
    simp only [List.dropWhile]
    by_cases h : p c
    · simp only [h, if_true]
      simpa using Nat.le_succ_of_le ih
    · simp [h]

/-- A successful `emailMatchAt` consumes at least the two leading characters,
so the rest is strictly shorter than the input. -/
theorem emailMatchAt_rest_lt {cs : List Char} {m : String} {r : List Char}
    (h : emailMatchAt cs = some (m, r)) : r.length < cs.length := by
  unfold emailMatchAt at h
  split at h
  case h_2 => exact absurd h (by simp)
  rename_i r1
  split at h
  · exact absurd h (by simp)
  split at h
  case h_2 => exact absurd h (by simp)
  rename_i r2 heq1
  split at h
  · exact absurd h (by simp)
  split at h
  case h_2 => exact absurd h (by simp)
  rename_i a r3 heq2
  split at h
  · exact absurd h (by simp)
  split at h
  case isFalse => exact absurd h (by simp)
  split at h
  case h_2 => exact absurd h (by simp)
  rename_i r4 heq3
  have hr : r = r4 := by
    have := congrArg (fun o => Option.map Prod.snd o) h
    simpa using this.symm
  have h1 : (r1.dropWhile isLocalChar).length ≤ r1.length :=
    dropWhile_len_le _ _
  have h2 : (r2.dropWhile isDomChar).length ≤ r2.length :=
    dropWhile_len_le _ _
  have h3 : (r3.dropWhile isTldChar).length ≤ r3.length :=
    dropWhile_len_le _ _
  have e1 : (r1.dropWhile isLocalChar).length = r2.length + 1 := by
    rw [heq1]; simp
  have e2 : (r2.dropWhile isDomChar).length = r3.length + 2 := by
    rw [heq2]; simp
  have e3 : (r3.dropWhile isTldChar).length = r4.length + 2 := by
    rw [heq3]; simp
  subst hr
  simp only [List.length_cons]
  omega

/-- `re.findall` of the email pattern: scan left to right, each match is
consumed whole (non-overlapping), a failed position advances one character. -/
def findAllEmails (cs : List Char) : List String :=
  match h : emailMatchAt cs with
  | some (m, r) => m :: findAllEmails r
  | none =>
    match cs with
    | [] => []
    | _ :: rest => findAllEmails rest
termination_by cs.length
decreasing_by
  · exact emailMatchAt_rest_lt h
  · simp

/-- The noise tokens `extract_emails_from_text` discards. -/
def avoid_patterns : List String :=
  ["noreply", "no-reply", "donotreply", "admin", "support"]

/-- `EmailManager.extract_emails_from_text` (src/emailer.py lines 460-474). -/
def extract_emails_from_text (text : String) : List String :=
  (findAllEmails text.data).filter
    (fun e => !(avoid_patterns.any (fun pat => strIn pat (pyLower e))))

/-- The corporate suffix tokens of `clean_company_name`. -/
def company_suffixes : List String :=
  ["pvt ltd", "private limited", "ltd", "limited", "inc", "corporation",
   "corp", "company", "technologies", "technology", "tech", "solutions",
   "solution", "systems", "system", "services", "service", "enterprises",
   "enterprise", "group", "pvt", "llp", "llc"]

/-- `re.sub(r'\\s+', '', s)`: delete every occurrence of a literal backslash
followed by one or more `s` characters (the doubled backslash again). -/
def removeBackslashS : List Char → List Char
  | [] => []
  | c :: rest =>
    if c = '\\' ∧ rest.head? = some 's' then
      removeBackslashS (rest.dropWhile (fun x => x = 's'))
    else
      c :: removeBackslashS rest
termination_by l => l.length
decreasing_by
  · have := dropWhile_len_le (fun x => x = 's') rest
    simp only [List.length_cons]
    omega
  · simp

/-- `EmailManager.clean_company_name` (src/emailer.py lines 398-418).  The
suffix patterns `rf'\\b{suffix}\\b'` match a literal backslash-`b` on either
side of the suffix, so the substitution deletes occurrences of the literal
text `\b<suffix>\b`; the class `[^a-zA-Z0-9\\s]` keeps alphanumerics and the
backslash (its `s` is already covered by `a-z`). -/
def clean_company_name (company_name : String) : String :=
  let clean0 := pyLower company_name
  let clean1 := company_suffixes.foldl
    (fun s suf => s.replace ("\\b" ++ suf ++ "\\b") "") clean0
  let clean2 := clean1.data.filter (fun c => c.isAlphanum || c = '\\')
  (String.mk (removeBackslashS clean2)).trim

/-- `EmailManager.generate_company_domains` (src/emailer.py lines 420-458). -/
def generate_company_domains (clean_company : String) : List String :=
  if clean_company = "" then []
  else
    let domains := [clean_company ++ ".com", clean_company ++ ".in",
                    clean_company ++ ".co.in", clean_company ++ ".org"]
    let domains :=
      if 8 < clean_company.length then
        domains ++ [String.mk (clean_company.data.take 8) ++ ".com",
                    String.mk (clean_company.data.take 8) ++ ".in"]
      else domains
    let variations := [clean_company.replace "technologies" "tech",
                       clean_company.replace "solutions" "sol",
                       clean_company.replace "systems" "sys"]
    let domains := variations.foldl
      (fun acc v =>
        if v ≠ clean_company then acc ++ [v ++ ".com", v ++ ".in"] else acc)
      domains
    domains.take 5

/-- An HR contact dict. -/
structure Contact where
  email : String
  name : String
  company : String
  source : String
  job_title : String
  confidence : String

/-- The six HR-style local parts of `extract_hr_contacts`. -/
def hr_locals : List String :=
  ["hr", "careers", "jobs", "recruitment", "hiring", "talent"]

/-- The company-type keywords guarding the location-based contact. -/
def company_type_keywords : List String :=
  ["tech", "solutions", "systems", "software"]

/-- Python `str.title()`: the first letter of each letter run upper-cased,
the rest lower-cased. -/
def pyTitleGo : Bool → List Char → List Char
  | _, [] => []
  | prevAlpha, c :: rest =>
    if c.isAlpha then
      (if prevAlpha then c.toLower else c.toUpper) :: pyTitleGo true rest
    else
      c :: pyTitleGo false rest

/-- Python `str.title()`. -/
def pyTitle (s : String) : String :=
  String.mk (pyTitleGo false s.data)

/-- The dedup-and-truncate loop of `extract_hr_contacts` (src/emailer.py
lines 384-396): walk the candidates, keep a contact when its email is new and
valid, stop as soon as three are kept.  `seen` is the set of kept emails. -/
def dedupLoop : List Contact → List String → List Contact
  | [], _ => []
  | contact :: rest, seen =>
    if seen.contains contact.email = false ∧ is_valid_email contact.email = true then
      if 3 ≤ seen.length + 1 then [contact]
      else contact :: dedupLoop rest (contact.email :: seen)
    else dedupLoop rest seen

/-- `EmailManager.extract_hr_contacts` (src/emailer.py lines 318-396).
An empty company name returns early with no contacts; otherwise the candidate
list is six domain-pattern contacts per generated domain, then the contacts
extracted from the description, then possibly one location-based contact, and
the dedup/limit loop keeps at most three valid ones.  (`location.split()[0]`
is total here: the guard guarantees the location contains a word.) -/
def extract_hr_contacts (job_data : JobDict) : List Contact :=
  let company := dget job_data "company" ""
  if company = "" then []
  else
    let title := dget job_data "title" ""
    let clean_company := clean_company_name company
    let possible_domains := generate_company_domains clean_company
    let domainContacts := possible_domains.flatMap (fun domain =>
      hr_locals.map (fun l =>
        { email := l ++ "@" ++ domain
          name := "HR Team"
          company := company
          source := "domain_pattern"
          job_title := title
          confidence := "medium" : Contact }))
    let descContacts :=
      (extract_emails_from_text (dget job_data "description" "")).map
        (fun e =>
          { email := e
            name := "Contact Person"
            company := company
            source := "job_description"
            job_title := title
            confidence := "high" : Contact })
    let locContacts :=
      if company_type_keywords.any (fun k => strIn k (pyLower company)) then
        let location := pyLower (dget job_data "location" "")
        if strIn "hyderabad" location || strIn "bangalore" location then
          [{ email := "hr." ++ ((pySplit location).headD "") ++ "@" ++
               (possible_domains.headD "company.com")
             name := "HR Team - " ++ pyTitle location
             company := company
             source := "location_pattern"
             job_title := title
             confidence := "low" : Contact }]
        else []
      else []
    dedupLoop (domainContacts ++ descContacts ++ locContacts) []

/-! ## Example data for concrete instantiations -/

/-- A concrete candidate configuration used to instantiate the theorems. -/
def cfgEx : Config where
  keywords :=
    { positive := ["testing", "qa", "selenium", "automation"]
      negative := ["senior", "lead", "architect"]
      fresher_friendly := ["fresher", "graduate", "entry level"] }
  min_salary := 3
  max_salary := 15
  target_locations := ["Hyderabad", "Bangalore"]
  qa_automation := "Mani_QA1.pdf"
  qa_entry := "Mani_QA3.pdf"
  qa_general := "Mani_QA2.pdf"

/-- A job record with fewer than two positive keyword hits. -/
def jobFewKw : JobDict :=
  [("title", "Head Chef"), ("description", "cooking pastries all day")]

/-- A job record with a negative keyword, many positive keywords and no
fresher-friendly keyword. -/
def jobNeg : JobDict :=
  [("title", "Senior QA testing engineer"),
   ("description", "selenium automation testing qa team")]

/-- A job record passing the role, location and experience checks, with no
salary information. -/
def jobPass : JobDict :=
  [("title", "QA testing role")]

/-- The role-check text `filter_job` builds from a job dict: lower-cased
title + space + description. -/
def roleText (d : JobDict) : String :=
  pyLower (dget d "title" "" ++ " " ++ dget d "description" "")

/-! ## Helper lemmas on the stage functions -/

theorem role_reject_insufficient (cfg : Config) (t dsc : String)
    (h : hitCount cfg.keywords.positive (pyLower (t ++ " " ++ dsc)) < 2) :
    (is_relevant_role cfg t dsc).is_relevant = false := by
  simp only [hitCount] at h
  simp only [is_relevant_role]
  rw [if_pos h]

theorem role_reject_negative (cfg : Config) (t dsc : String)
    (hneg : 0 < hitCount cfg.keywords.negative (pyLower (t ++ " " ++ dsc)))
    (hfre : hitCount cfg.keywords.fresher_friendly (pyLower (t ++ " " ++ dsc)) = 0) :
    (is_relevant_role cfg t dsc).is_relevant = false := by
  simp only [hitCount] at hneg hfre
  simp only [is_relevant_role]
  by_cases hp :
      (cfg.keywords.positive.filter
        (fun kw => strIn kw (pyLower (t ++ " " ++ dsc)))).length < 2
  · rw [if_pos hp]
  · rw [if_neg hp, if_pos ⟨hneg, hfre⟩]

theorem role_accept_fresher (cfg : Config) (t dsc : String)
    (hpos : 2 ≤ hitCount cfg.keywords.positive (pyLower (t ++ " " ++ dsc)))
    (hfre : 0 < hitCount cfg.keywords.fresher_friendly (pyLower (t ++ " " ++ dsc))) :
    (is_relevant_role cfg t dsc).is_relevant = true := by
  simp only [hitCount] at hpos hfre
  simp only [is_relevant_role]
  rw [if_neg (by omega), if_neg (fun hc => by omega)]

theorem filter_reject_of_role (cfg : Config) (d : JobDict)
    (h : (is_relevant_role cfg (dget d "title" "")
      (dget d "description" "")).is_relevant = false) :
    (filter_job cfg d).is_relevant = false := by
  simp only [filter_job, filter_job_from]
  rw [if_pos h]

/-! ## The claims -/

/-- **C1**: for every job record in which fewer than 2 of the configured
positive keywords occur as substrings of the lower-cased concatenation of
title and description, `filter_job` returns `is_relevant = false`, regardless
of the record's other fields. -/
theorem filter_job_requires_two_positive_keywords (cfg : Config) (d : JobDict)
    (h : hitCount cfg.keywords.positive (roleText d) < 2) :
    (filter_job cfg d).is_relevant = false :=
  filter_reject_of_role cfg d (role_reject_insufficient cfg _ _ h)

/-- Witness for C1 at a concrete configuration and job record. -/
theorem filter_job_requires_two_positive_keywords_witness :
    (filter_job cfgEx jobFewKw).is_relevant = false :=
  filter_job_requires_two_positive_keywords cfgEx jobFewKw (by decide)

/-- **C2**: a job whose text contains a configured negative keyword is
rejected by `filter_job` whenever no fresher-friendly keyword occurs, no
matter how many positive keywords matched; and if a fresher-friendly keyword
is also present, the negative keywords do not by themselves cause rejection
(with enough positive keywords the role check accepts). -/
theorem filter_job_negative_keyword_override (cfg : Config) (d : JobDict)
    (hneg : 0 < hitCount cfg.keywords.negative (roleText d)) :
    (hitCount cfg.keywords.fresher_friendly (roleText d) = 0 →
      (filter_job cfg d).is_relevant = false) ∧
    (2 ≤ hitCount cfg.keywords.positive (roleText d) →
      0 < hitCount cfg.keywords.fresher_friendly (roleText d) →
      (is_relevant_role cfg (dget d "title" "")
        (dget d "description" "")).is_relevant = true) := by
  constructor
  · intro hfre
    exact filter_reject_of_role cfg d
      (role_reject_negative cfg _ _ hneg hfre)
  · intro hpos hfre
    exact role_accept_fresher cfg _ _ hpos hfre

/-- Witness for C2: a senior-role record with abundant positive keywords and
no fresher-friendly language is rejected. -/
theorem filter_job_negative_keyword_override_witness :
    (filter_job cfgEx jobNeg).is_relevant = false :=
  (filter_job_negative_keyword_override cfgEx jobNeg (by decide)).1 (by decide)

/-- **C3**: once the role, location and experience checks pass, `filter_job`
rejects exactly when salary extraction found a salary and it lies outside the
configured band (extracted max below `min_salary`, or extracted min above
`max_salary`); with `found = false` the job is never rejected for salary. -/
theorem filter_job_salary_stage (cfg : Config) (d : JobDict)
    (hrole : (is_relevant_role cfg (dget d "title" "")
      (dget d "description" "")).is_relevant = true)
    (hloc : (is_location_match cfg (dget d "location" "")).is_match = true)
    (hexp : (calculate_experience_match (dget d "description" "")).is_match = true) :
    (filter_job cfg d).is_relevant = false ↔
      (extract_salary (dget d "title" "" ++ " " ++
          dget d "description" "")).found = true ∧
        ((extract_salary (dget d "title" "" ++ " " ++
            dget d "description" "")).max_salary < cfg.min_salary ∨
          cfg.max_salary < (extract_salary (dget d "title" "" ++ " " ++
            dget d "description" "")).min_salary) := by
  simp only [filter_job, filter_job_from]
  rw [if_neg (by simp [hrole]), if_neg (by simp [hloc]), if_neg (by simp [hexp])]
  by_cases h1 : (extract_salary (dget d "title" "" ++ " " ++
      dget d "description" "")).found = true ∧
      (extract_salary (dget d "title" "" ++ " " ++
        dget d "description" "")).max_salary < cfg.min_salary
  · rw [if_pos h1]
    simp only [true_iff]
    exact ⟨h1.1, Or.inl h1.2⟩
  · rw [if_neg h1]
    by_cases h2 : (extract_salary (dget d "title" "" ++ " " ++
        dget d "description" "")).found = true ∧
        cfg.max_salary < (extract_salary (dget d "title" "" ++ " " ++
          dget d "description" "")).min_salary
    · rw [if_pos h2]
      simp only [true_iff]
      exact ⟨h2.1, Or.inr h2.2⟩
    · rw [if_neg h2]
      simp only [Bool.true_eq_false, false_iff]
      tauto

/-- Witness for C3: a record with no salary information passes all stages. -/
theorem filter_job_salary_stage_witness :
    (filter_job cfgEx jobPass).is_relevant = true := by
  have h := filter_job_salary_stage cfgEx jobPass (by decide) (by decide) (by decide)
  revert h
  decide

/-- The acceptance condition of `is_location_match`, stage by stage. -/
theorem is_location_match_iff (cfg : Config) (loc : String) :
    (is_location_match cfg loc).is_match = true ↔
      (loc = "" ∨
       cfg.target_locations.any (fun t => strIn (pyLower t) (pyLower loc)) = true ∨
       remote_indicators.any (fun i => strIn i (pyLower loc)) = true ∨
       cfg.target_locations.any
         (fun t => (pySplit (pyLower t)).any
           (fun w => strIn w (pyLower loc))) = true) := by
  simp only [is_location_match]
  by_cases h0 : loc = ""
  · rw [if_pos h0]
    simp [h0]
  · rw [if_neg h0]
    cases h1 : cfg.target_locations.find? (fun t => strIn (pyLower t) (pyLower loc)) with
    | some t =>
      have hmem := List.mem_of_find?_eq_some h1
      have hp := List.find?_some h1
      simp only [h0, false_or, true_iff]
      exact Or.inl (List.any_eq_true.mpr ⟨t, hmem, hp⟩)
    | none =>
      have h1f : cfg.target_locations.any
          (fun t => strIn (pyLower t) (pyLower loc)) = false := by
        rw [List.any_eq_false]
        intro t ht
        exact List.find?_eq_none.mp h1 t ht
      cases h2 : remote_indicators.find? (fun ind => strIn ind (pyLower loc)) with
      | some ind =>
        have hmem := List.mem_of_find?_eq_some h2
        have hp := List.find?_some h2
        simp only [h0, h1f, Bool.false_eq_true, false_or, true_iff]
        exact Or.inl (List.any_eq_true.mpr ⟨ind, hmem, hp⟩)
      | none =>
        have h2f : remote_indicators.any (fun i => strIn i (pyLower loc)) = false := by
          rw [List.any_eq_false]
          intro i hi
          exact List.find?_eq_none.mp h2 i hi
        cases h3 : cfg.target_locations.find?
            (fun t => (pySplit (pyLower t)).any (fun w => strIn w (pyLower loc))) with
        | some t =>
          have hmem := List.mem_of_find?_eq_some h3
          have hp := List.find?_some h3
          simp only [h0, h1f, h2f, Bool.false_eq_true, false_or, true_iff]
          exact List.any_eq_true.mpr ⟨t, hmem, hp⟩
        | none =>
          have h3f : cfg.target_locations.any
              (fun t => (pySplit (pyLower t)).any
                (fun w => strIn w (pyLower loc))) = false := by
            rw [List.any_eq_false]
            intro t ht
            exact List.find?_eq_none.mp h3 t ht
          simp [h0, h1f, h2f, h3f]

/-- **C4**: the location policy, first match wins: empty location accepted;
else a case-insensitive substring match of a target location; else the fixed
remote vocabulary; else a single word of a target location; else rejected
with a reason citing the location.  The location `"Remote"` is accepted
whatever `target_locations` contains. -/
theorem is_location_match_policy (cfg : Config) (loc : String) :
    ((is_location_match cfg loc).is_match = true ↔
      (loc = "" ∨
       cfg.target_locations.any (fun t => strIn (pyLower t) (pyLower loc)) = true ∨
       remote_indicators.any (fun i => strIn i (pyLower loc)) = true ∨
       cfg.target_locations.any
         (fun t => (pySplit (pyLower t)).any
           (fun w => strIn w (pyLower loc))) = true)) ∧
    ((is_location_match cfg loc).is_match = false →
      (is_location_match cfg loc).reason =
        "Location " ++ loc ++ " not in preferred list") ∧
    (is_location_match cfg "Remote").is_match = true := by
  refine ⟨is_location_match_iff cfg loc, ?_, ?_⟩
  · simp only [is_location_match]
    by_cases h0 : loc = ""
    · rw [if_pos h0]
      intro hc
      cases hc
    · rw [if_neg h0]
      cases h1 : cfg.target_locations.find? (fun t => strIn (pyLower t) (pyLower loc)) with
      | some t => intro hc; cases hc
      | none =>
        cases h2 : remote_indicators.find? (fun ind => strIn ind (pyLower loc)) with
        | some ind => intro hc; cases hc
        | none =>
          cases h3 : cfg.target_locations.find?
              (fun t => (pySplit (pyLower t)).any (fun w => strIn w (pyLower loc))) with
          | some t => intro hc; cases hc
          | none => intro _; rfl
  · exact (is_location_match_iff cfg "Remote").mpr
      (Or.inr (Or.inr (Or.inl (by decide))))

/-- `listIn` decides contiguous-sublist containment. -/
theorem listIn_iff (n : List Char) : ∀ h : List Char, listIn n h = true ↔ n <:+: h := by
  intro h
  induction h with
  | nil =>
    simp [listIn, List.isEmpty_iff, List.infix_nil]
  | cons c t ih =>
    simp only [listIn, Bool.or_eq_true, List.isPrefixOf_iff_prefix, ih,
      List.infix_cons_iff]

/-- A string occurs in anything it is appended to the right of. -/
theorem strIn_append_right (pre e : String) : strIn e (pre ++ e) = true := by
  rw [strIn, listIn_iff, String.data_append]
  exact (List.suffix_append pre.data e.data).isInfix

/-- A string occurs in anything built around it by appending on both sides. -/
theorem strIn_append_middle (pre e suf : String) :
    strIn e (pre ++ e ++ suf) = true := by
  rw [strIn, listIn_iff, String.data_append, String.data_append]
  exact ((List.suffix_append pre.data e.data).isInfix).trans
    ((List.prefix_append (pre.data ++ e.data) suf.data).isInfix)

/-- The acceptance bound of the experience check: an integer requirement is
within `actual_experience + 1 = 2.5` years exactly when it is at most 2. -/
theorem exp_bound_iff (n : Nat) :
    ((n : ℚ) ≤ actual_experience + 1) ↔ n ≤ 2 := by
  unfold actual_experience
  constructor
  · intro h
    by_contra hn
    push_neg at hn
    have h3 : (3 : ℚ) ≤ (n : ℚ) := by exact_mod_cast hn
    linarith
  · intro h
    have h2 : (n : ℚ) ≤ 2 := by exact_mod_cast h
    linarith

/-- **C5**: `calculate_experience_match` extracts the requirement of the
first matching pattern (minimum of the captured numbers for a range), accepts
exactly when that requirement is at most the candidate's 1.5 years plus 1
year of slack, rejects otherwise with the computed requirement cited in the
reason, and accepts with requirement 0 when no pattern matches. -/
theorem calculate_experience_match_spec (dsc : String) :
    ((calculate_experience_match dsc).required_exp =
      (expRequired (pyLower dsc).data).getD 0) ∧
    ((calculate_experience_match dsc).is_match = true ↔
      ((calculate_experience_match dsc).required_exp : ℚ) ≤
        actual_experience + 1) ∧
    ((calculate_experience_match dsc).is_match = false →
      strIn (toString (calculate_experience_match dsc).required_exp)
        (calculate_experience_match dsc).reason = true) ∧
    (expRequired (pyLower dsc).data = none →
      (calculate_experience_match dsc).is_match = true ∧
      (calculate_experience_match dsc).required_exp = 0) := by
  simp only [calculate_experience_match]
  generalize expRequired (pyLower dsc).data = r
  cases r with
  | none =>
    refine ⟨rfl, ?_, ?_, fun _ => ⟨rfl, rfl⟩⟩
    · simp only [true_iff]
      rw [exp_bound_iff]
      omega
    · intro hc
      simp at hc
  | some n =>
    by_cases hn : (n : ℚ) ≤ actual_experience + 1
    · simp only [if_pos hn]
      refine ⟨rfl, by simp [hn], ?_, ?_⟩
      · intro hc
        simp at hc
      · intro hc
        cases hc
    · simp only [if_neg hn]
      refine ⟨rfl, ?_, ?_, fun hc => by cases hc⟩
      · simp only [Bool.false_eq_true, false_iff]
        exact hn
      · intro _
        exact strIn_append_middle "Requires " (toString n)
          " years, profile has 1.5"

/-- A concrete résumé-selection text scoring `automation = 3`, `entry = 5`. -/
def resumeExTitle : String := "selenium pytest sdet"

/-- The description half of the concrete résumé-selection example. -/
def resumeExDesc : String := "fresher trainee junior associate graduate"

/-- **C6**: `select_resume` is a strict priority cascade: automation (or
advanced-project) keywords first, then entry-level keywords, then the general
résumé; in particular a record scoring `automation = 3` and `entry = 5`
still selects the automation résumé. -/
theorem select_resume_priority (cfg : Config) (t dsc : String) :
    ((3 ≤ hitCount automation_keywords (pyLower (t ++ " " ++ dsc)) ∨
      2 ≤ hitCount advanced_project_keywords (pyLower (t ++ " " ++ dsc)) →
      select_resume cfg t dsc = cfg.qa_automation) ∧
     (hitCount automation_keywords (pyLower (t ++ " " ++ dsc)) < 3 →
      hitCount advanced_project_keywords (pyLower (t ++ " " ++ dsc)) < 2 →
      2 ≤ hitCount entry_keywords (pyLower (t ++ " " ++ dsc)) →
      select_resume cfg t dsc = cfg.qa_entry) ∧
     (hitCount automation_keywords (pyLower (t ++ " " ++ dsc)) < 3 →
      hitCount advanced_project_keywords (pyLower (t ++ " " ++ dsc)) < 2 →
      hitCount entry_keywords (pyLower (t ++ " " ++ dsc)) < 2 →
      select_resume cfg t dsc = cfg.qa_general)) ∧
    (hitCount automation_keywords
        (pyLower (resumeExTitle ++ " " ++ resumeExDesc)) = 3 ∧
     hitCount entry_keywords (pyLower (resumeExTitle ++ " " ++ resumeExDesc)) = 5 ∧
     select_resume cfg resumeExTitle resumeExDesc = cfg.qa_automation) := by
  refine ⟨⟨?_, ?_, ?_⟩, by decide, by decide, ?_⟩
  · intro h
    simp only [select_resume]
    rw [if_pos h]
  · intro h1 h2 h3
    simp only [select_resume]
    rw [if_neg (by omega), if_pos h3]
  · intro h1 h2 h3
    simp only [select_resume]
    rw [if_neg (by omega), if_neg (by omega)]
  · simp only [select_resume]
    rw [if_pos (by decide)]

/-- **C7**: `filter_job` never propagates a fault: whatever the stages do,
a raise anywhere in the body yields the rejection result built from the fault
text — `is_relevant = false`, the fault text embedded in the reason, and no
partial stage results — and with the never-raising stages the source actually
binds, the guarded pipeline is exactly `filter_job`. -/
theorem filter_job_catches_faults (cfg : Config) (st : Stages) (d : JobDict) :
    (∀ e, filter_job_body cfg st d = Except.error e →
      filter_job_safe cfg st d = error_result e ∧
      (filter_job_safe cfg st d).is_relevant = false ∧
      strIn e (filter_job_safe cfg st d).reason = true ∧
      (filter_job_safe cfg st d).role_check = none ∧
      (filter_job_safe cfg st d).location_check = none ∧
      (filter_job_safe cfg st d).experience_check = none ∧
      (filter_job_safe cfg st d).salary_info = none) ∧
    filter_job_safe cfg (pureStages cfg) d = filter_job cfg d := by
  constructor
  · intro e he
    have hs : filter_job_safe cfg st d = error_result e := by
      simp [filter_job_safe, he]
    rw [hs]
    exact ⟨rfl, rfl, strIn_append_right "Error filtering job: " e,
      rfl, rfl, rfl, rfl⟩
  · by_cases h1 : (is_relevant_role cfg (dget d "title" "")
        (dget d "description" "")).is_relevant = false
    · simp [filter_job_safe, filter_job_body, pureStages, filter_job,
        filter_job_from, Except.bind, h1]
    · by_cases h2 : (is_location_match cfg (dget d "location" "")).is_match = false
      · simp [filter_job_safe, filter_job_body, pureStages, filter_job,
          filter_job_from, Except.bind, h1, h2]
      · by_cases h3 : (calculate_experience_match
            (dget d "description" "")).is_match = false
        · simp [filter_job_safe, filter_job_body, pureStages, filter_job,
            filter_job_from, Except.bind, h1, h2, h3]
        · by_cases h4 : (extract_salary (dget d "title" "" ++ " " ++
              dget d "description" "")).found = true ∧
              (extract_salary (dget d "title" "" ++ " " ++
                dget d "description" "")).max_salary < cfg.min_salary
          · simp [filter_job_safe, filter_job_body, pureStages, filter_job,
              filter_job_from, Except.bind, h1, h2, h3, h4]
          · by_cases h5 : (extract_salary (dget d "title" "" ++ " " ++
                dget d "description" "")).found = true ∧
                cfg.max_salary < (extract_salary (dget d "title" "" ++ " " ++
                  dget d "description" "")).min_salary
            · have hnm : ¬((extract_salary (dget d "title" "" ++ " " ++
                  dget d "description" "")).max_salary < cfg.min_salary) :=
                fun hh => h4 ⟨h5.1, hh⟩
              simp [filter_job_safe, filter_job_body, pureStages, filter_job,
                filter_job_from, Except.bind, h1, h2, h3, h5.1, h5.2, hnm]
            · simp [filter_job_safe, filter_job_body, pureStages, filter_job,
                filter_job_from, Except.bind, h1, h2, h3, h4, h5]

/-- **C10**: `filter_job` does not mutate its input record: with the dict
state threaded through every operation the body performs on `job_data`, the
dict comes back unchanged, and the `FilterResult` is assembled as a fresh
value from the read fields. -/
theorem filter_job_frame_preserves_input (cfg : Config) (d : JobDict) :
    (filter_job_frame cfg d).2 = d ∧
    (filter_job_frame cfg d).1 = filter_job cfg d :=
  ⟨rfl, rfl⟩

/-- The dedup/limit loop keeps at most `3 - |seen|` contacts. -/
theorem dedupLoop_length_le (l : List Contact) : ∀ seen : List String,
    seen.length ≤ 2 → (dedupLoop l seen).length ≤ 3 - seen.length := by
  induction l with
  | nil =>
    intro seen _
    simp [dedupLoop]
  | cons contact rest ih =>
    intro seen hseen
    simp only [dedupLoop]
    by_cases hc : seen.contains contact.email = false ∧
        is_valid_email contact.email = true
    · rw [if_pos hc]
      by_cases h3 : 3 ≤ seen.length + 1
      · rw [if_pos h3]
        simp only [List.length_singleton]
        omega
      · rw [if_neg h3]
        have hrec := ih (contact.email :: seen) (by simp only [List.length_cons]; omega)
        simp only [List.length_cons] at hrec ⊢
        omega
    · rw [if_neg hc]
      have hrec := ih seen hseen
      omega

/-- Every contact the dedup/limit loop keeps has an email outside `seen`, and
the kept emails are pairwise distinct. -/
theorem dedupLoop_emails (l : List Contact) : ∀ seen : List String,
    (∀ c ∈ dedupLoop l seen, c.email ∈ seen → False) ∧
    List.Pairwise (fun a b : Contact => a.email ≠ b.email) (dedupLoop l seen) := by
  induction l with
  | nil =>
    intro seen
    simp [dedupLoop]
  | cons contact rest ih =>
    intro seen
    simp only [dedupLoop]
    by_cases hc : seen.contains contact.email = false ∧
        is_valid_email contact.email = true
    · have hnotmem : contact.email ∉ seen := by
        have := hc.1
        simpa using this
      rw [if_pos hc]
      by_cases h3 : 3 ≤ seen.length + 1
      · rw [if_pos h3]
        refine ⟨?_, List.pairwise_singleton _ _⟩
        intro c hcmem
        rw [List.mem_singleton] at hcmem
        subst hcmem
        exact fun hmem => hnotmem hmem
      · rw [if_neg h3]
        obtain ⟨ihmem, ihpw⟩ := ih (contact.email :: seen)
        refine ⟨?_, ?_⟩
        · intro c hcmem
          rcases List.mem_cons.mp hcmem with rfl | hmem
          · exact fun hmem => hnotmem hmem
          · intro hin
            exact ihmem c hmem (List.mem_cons_of_mem _ hin)
        · rw [List.pairwise_cons]
          refine ⟨?_, ihpw⟩
          intro b hb
          have := ihmem b hb
          intro heq
          exact this (heq ▸ List.mem_cons_self _ _)
    · rw [if_neg hc]
      exact ih seen

/-- The loop started on an empty `seen` keeps at most three contacts. -/
theorem dedupLoop_init_length (l : List Contact) : (dedupLoop l []).length ≤ 3 := by
  have h := dedupLoop_length_le l [] (by simp)
  simpa using h

/-- **C8**: for every job record the contact extractor returns at most three
contacts, and no two of them carry the same email address (the dedup key the
source uses). -/
theorem extract_hr_contacts_bounded (d : JobDict) :
    (extract_hr_contacts d).length ≤ 3 ∧
    List.Pairwise (fun a b : Contact => a.email ≠ b.email)
      (extract_hr_contacts d) := by
  simp only [extract_hr_contacts]
  by_cases hc : dget d "company" "" = ""
  · rw [if_pos hc]
    simp
  · rw [if_neg hc]
    exact ⟨dedupLoop_init_length _, (dedupLoop_emails _ ([] : List String)).2⟩

/-- The findall pattern of the extractor starts with a literal backslash, so
a position can only match at a backslash. -/
theorem emailMatchAt_none_no_backslash :
    ∀ cs : List Char, '\\' ∉ cs → emailMatchAt cs = none := by
  intro cs h
  unfold emailMatchAt
  split
  · rename_i r1
    exact absurd (List.mem_cons_self _ _) h
  · rfl

/-- On text without backslashes the findall of the (doubled-backslash) email
pattern finds nothing. -/
theorem findAllEmails_no_backslash :
    ∀ cs : List Char, '\\' ∉ cs → findAllEmails cs = [] := by
  intro cs
  induction cs with
  | nil =>
    intro _
    rw [findAllEmails.eq_def]
    simp [emailMatchAt]
  | cons c rest ih =>
    intro h
    rw [findAllEmails.eq_def]
    split
    · rename_i m r heq
      rw [emailMatchAt_none_no_backslash _ h] at heq
      cases heq
    · exact ih (fun hm => h (List.mem_cons_of_mem _ hm))

/-- The Scenario E description of the specification: the extractor's email
regex (written with doubled backslashes) matches nothing in it, so the
extractor returns no description-derived contact at all — and even the
well-formed address fails the (equally doubled) validation regex. -/
theorem extract_emails_scenarioE :
    extract_emails_from_text
        "contact: careers@acme.com and noreply@acme.com" = [] ∧
    is_valid_email "careers@acme.com" = false := by
  constructor
  · unfold extract_emails_from_text
    rw [findAllEmails_no_backslash _ (by decide)]
    rfl
  · decide

end JobBot
